import Mathlib

/-!
Shallow embedding of the ABCI message-protocol layer of `tendermint-rs`
(`src/tendermint/src/abci/`): the `Request`/`Response` unions, the category
partition (`Request::kind`, the four narrowed unions with `From`/`TryFrom`
conversions), and the protobuf-structure wire codec
(`From<Request> for pb::Request` / `TryFrom<pb::Request> for Request` and the
corresponding leaf conversions).

Modelling conventions:
- Rust `String` is Lean `String`; `Bytes`/`Vec<u8>` is `List Nat`;
  `u64`/`u32` are `Nat`; `i32` is `Int`.
- `Result<T, E>` is `Except E T`; Rust `?` with `From`-conversion of the
  error is `Except.mapError`.
- `crate::Error` (from `src/tendermint/src/error.rs`) is embedded only in
  the form this layer constructs it: via `From<&'static str> for Error`,
  which builds `Error::Other { msg }`.
-/

/-- Byte strings (`bytes::Bytes`, `Vec<u8>`). -/
abbrev Bytes := List Nat

/-- The slice of `crate::Error` used by the ABCI layer: every error this
layer constructs goes through `From<&'static str> for Error`, which yields
`Error::Other { msg }` (`src/tendermint/src/error.rs`). -/
inductive Error where
  | other (msg : String)
deriving DecidableEq

/-- Modelled from the spec: the `MethodKind` enum is declared in
`src/tendermint/src/abci/mod.rs`, which is not under `src/`; §3 of the spec
fixes the category set as exactly {Flush, Consensus, Mempool, Info, Snapshot}. -/
inductive MethodKind where
  | Consensus
  | Mempool
  | Snapshot
  | Info
  | Flush
deriving DecidableEq

/-- The result of applying a snapshot chunk
(`src/tendermint/src/abci/response/apply_snapshot_chunk.rs`). -/
inductive ApplySnapshotChunkResult where
  | Unknown
  | Accept
  | Abort
  | Retry
  | RetrySnapshot
  | RejectSnapshot
deriving DecidableEq

/-- The `#[repr(i32)]` discriminants fixed in the source:
Unknown = 0, Accept = 1, Abort = 2, Retry = 3, RetrySnapshot = 4,
RejectSnapshot = 5 (the `as i32` cast used by the encoder). -/
def ApplySnapshotChunkResult.toInt : ApplySnapshotChunkResult → Int
  | .Unknown => 0
  | .Accept => 1
  | .Abort => 2
  | .Retry => 3
  | .RetrySnapshot => 4
  | .RejectSnapshot => 5

/-- The decoder's match on the integer `result` field in
`TryFrom<pb::ResponseApplySnapshotChunk> for ApplySnapshotChunk`:
0..5 map to the variants, everything else is
`Err("unknown snapshot chunk result")`. -/
def ApplySnapshotChunkResult.fromInt (n : Int) : Except Error ApplySnapshotChunkResult :=
  if n = 0 then .ok .Unknown
  else if n = 1 then .ok .Accept
  else if n = 2 then .ok .Abort
  else if n = 3 then .ok .Retry
  else if n = 4 then .ok .RetrySnapshot
  else if n = 5 then .ok .RejectSnapshot
  else .error (Error.other "unknown snapshot chunk result")

/-- `impl Default for ApplySnapshotChunkResult` returns `Self::Unknown`. -/
def ApplySnapshotChunkResult.default : ApplySnapshotChunkResult := .Unknown

/-- Request `Echo` payload (`src/tendermint/src/abci/request/echo.rs`). -/
structure EchoReq where
  message : String
deriving DecidableEq

/-- Response `Echo` payload (`src/tendermint/src/abci/response/echo.rs`). -/
structure EchoResp where
  message : String
deriving DecidableEq

/-- Request `Info` payload (`src/tendermint/src/abci/request/info.rs`). -/
structure InfoReq where
  version : String
  block_version : Nat
  p2p_version : Nat
  abci_version : String
deriving DecidableEq

/-- Request `DeliverTx` payload (`src/tendermint/src/abci/request/deliver_tx.rs`). -/
structure DeliverTxReq where
  tx : Bytes
deriving DecidableEq

/-- Modelled from the spec: the `Snapshot` descriptor lives in
`src/tendermint/src/abci/types.rs`, which is not under `src/`; §3 gives it
as the application-opaque record {height, format, chunk_count, content
hash, metadata bytes}, and its wire mapping is lossless with no protocol
logic of its own. -/
structure Snapshot where
  height : Nat
  format : Nat
  chunk_count : Nat
  hash : Bytes
  metadata : Bytes
deriving DecidableEq

/-- Request `OfferSnapshot` payload
(`src/tendermint/src/abci/request/offer_snapshot.rs`). -/
structure OfferSnapshotReq where
  snapshot : Snapshot
  app_hash : Bytes
deriving DecidableEq

/-- Modelled from the spec: the `Event` record type
(`src/tendermint/src/abci/event.rs`) is not under `src/`; §4.1 treats event
records as opaque flat payloads with a lossless wire mapping. -/
structure Event where
  payload : Bytes
deriving DecidableEq

/-- Response `BeginBlock` payload
(`src/tendermint/src/abci/response/begin_block.rs`). -/
structure BeginBlockResp where
  events : List Event
deriving DecidableEq

/-- Response `ApplySnapshotChunk` payload
(`src/tendermint/src/abci/response/apply_snapshot_chunk.rs`). -/
structure ApplySnapshotChunkResp where
  result : ApplySnapshotChunkResult
  refetch_chunks : List Nat
  reject_senders : List String
deriving DecidableEq

/-- `#[derive(Default)]` for `ApplySnapshotChunk`: every field takes its
own default (`Unknown`, empty vectors). -/
def ApplySnapshotChunkResp.default : ApplySnapshotChunkResp :=
  { result := ApplySnapshotChunkResult.default
    refetch_chunks := []
    reject_senders := [] }

/-- Modelled from the spec: `src/tendermint/src/abci/request/init_chain.rs`
is not under `src/`; §4.1 treats `InitChain` as an opaque flat payload with
a lossless wire mapping and no protocol logic. -/
structure InitChainReq where
  payload : Bytes
deriving DecidableEq

/-- Modelled from the spec: `src/tendermint/src/abci/request/query.rs`
is not under `src/`; §4.1 treats `Query` as an opaque flat payload with
a lossless wire mapping and no protocol logic. -/
structure QueryReq where
  payload : Bytes
deriving DecidableEq

/-- Modelled from the spec: `src/tendermint/src/abci/request/begin_block.rs`
is not under `src/`; §4.1 treats the request-side `BeginBlock` as an opaque
flat payload with a lossless wire mapping and no protocol logic. -/
structure BeginBlockReq where
  payload : Bytes
deriving DecidableEq

/-- Modelled from the spec: `src/tendermint/src/abci/request/check_tx.rs`
is not under `src/`; §4.1 treats `CheckTx` as an opaque flat payload with
a lossless wire mapping and no protocol logic. -/
structure CheckTxReq where
  payload : Bytes
deriving DecidableEq

/-- Modelled from the spec: `src/tendermint/src/abci/request/end_block.rs`
is not under `src/`; §4.1 treats `EndBlock` as an opaque flat payload with
a lossless wire mapping and no protocol logic. -/
structure EndBlockReq where
  payload : Bytes
deriving DecidableEq

/-- Modelled from the spec:
`src/tendermint/src/abci/request/load_snapshot_chunk.rs` is not under
`src/`; §4.1 treats `LoadSnapshotChunk` as an opaque flat payload with a
lossless wire mapping and no protocol logic. -/
structure LoadSnapshotChunkReq where
  payload : Bytes
deriving DecidableEq

/-- Modelled from the spec:
`src/tendermint/src/abci/request/apply_snapshot_chunk.rs` is not under
`src/`; §4.4 gives the request as `ApplySnapshotChunk(index, chunk, sender)`
with a lossless wire mapping and no protocol logic. -/
structure ApplySnapshotChunkReq where
  index : Nat
  chunk : Bytes
  sender : String
deriving DecidableEq

/-- Modelled from the spec: `src/tendermint/src/abci/response/exception.rs`
is not under `src/`; §7 describes `Exception` as an application fault
surfaced verbatim, an opaque flat payload. -/
structure ExceptionResp where
  error : String
deriving DecidableEq

/-- Modelled from the spec: `src/tendermint/src/abci/response/info.rs`
is not under `src/`; §4.1 treats the response-side `Info` as an opaque flat
payload with a lossless wire mapping and no protocol logic. -/
structure InfoResp where
  payload : Bytes
deriving DecidableEq

/-- Modelled from the spec: `src/tendermint/src/abci/response/init_chain.rs`
is not under `src/`; §4.1 treats the response-side `InitChain` as an opaque
flat payload with a lossless wire mapping and no protocol logic. -/
structure InitChainResp where
  payload : Bytes
deriving DecidableEq

/-- Modelled from the spec: `src/tendermint/src/abci/response/query.rs`
is not under `src/`; §4.1 treats the response-side `Query` as an opaque
flat payload with a lossless wire mapping and no protocol logic. -/
structure QueryResp where
  payload : Bytes
deriving DecidableEq

/-- Modelled from the spec: `src/tendermint/src/abci/response/check_tx.rs`
is not under `src/`; §4.1 treats the response-side `CheckTx` as an opaque
flat payload with a lossless wire mapping and no protocol logic. -/
structure CheckTxResp where
  payload : Bytes
deriving DecidableEq

/-- Modelled from the spec: `src/tendermint/src/abci/response/deliver_tx.rs`
is not under `src/`; §4.1 treats the response-side `DeliverTx` as an opaque
flat payload with a lossless wire mapping and no protocol logic. -/
structure DeliverTxResp where
  payload : Bytes
deriving DecidableEq

/-- Modelled from the spec: `src/tendermint/src/abci/response/end_block.rs`
is not under `src/`; §4.1 treats the response-side `EndBlock` as an opaque
flat payload with a lossless wire mapping and no protocol logic. -/
structure EndBlockResp where
  payload : Bytes
deriving DecidableEq

/-- Modelled from the spec: `src/tendermint/src/abci/response/commit.rs`
is not under `src/`; §4.1 treats the response-side `Commit` as an opaque
flat payload with a lossless wire mapping and no protocol logic. -/
structure CommitResp where
  payload : Bytes
deriving DecidableEq

/-- Modelled from the spec:
`src/tendermint/src/abci/response/list_snapshots.rs` is not under `src/`;
§4.4 gives the response as the application's list of candidate snapshots,
with a lossless wire mapping and no protocol logic. -/
structure ListSnapshotsResp where
  snapshots : List Snapshot
deriving DecidableEq

/-- Modelled from the spec:
`src/tendermint/src/abci/response/offer_snapshot.rs` is not under `src/`;
§4.4 gives the response as the application's accept-or-reject answer to an
offer, an opaque flat payload with a lossless wire mapping. -/
structure OfferSnapshotResp where
  payload : Bytes
deriving DecidableEq

/-- Modelled from the spec:
`src/tendermint/src/abci/response/load_snapshot_chunk.rs` is not under
`src/`; §4.4 gives the response as the chunk bytes supplied by the
application, an opaque flat payload with a lossless wire mapping. -/
structure LoadSnapshotChunkResp where
  chunk : Bytes
deriving DecidableEq

/-- All possible ABCI requests (`src/tendermint/src/abci/request.rs`). -/
inductive Request where
  | Echo (x : EchoReq)
  | Flush
  | Info (x : InfoReq)
  | InitChain (x : InitChainReq)
  | Query (x : QueryReq)
  | BeginBlock (x : BeginBlockReq)
  | CheckTx (x : CheckTxReq)
  | DeliverTx (x : DeliverTxReq)
  | EndBlock (x : EndBlockReq)
  | Commit
  | ListSnapshots
  | OfferSnapshot (x : OfferSnapshotReq)
  | LoadSnapshotChunk (x : LoadSnapshotChunkReq)
  | ApplySnapshotChunk (x : ApplySnapshotChunkReq)
deriving DecidableEq

/-- `Request::kind`: the static category table
(`src/tendermint/src/abci/request.rs`, lines 163-184). -/
def Request.kind : Request → MethodKind
  | .Flush => .Flush
  | .InitChain _ => .Consensus
  | .BeginBlock _ => .Consensus
  | .DeliverTx _ => .Consensus
  | .EndBlock _ => .Consensus
  | .Commit => .Consensus
  | .CheckTx _ => .Mempool
  | .ListSnapshots => .Snapshot
  | .OfferSnapshot _ => .Snapshot
  | .LoadSnapshotChunk _ => .Snapshot
  | .ApplySnapshotChunk _ => .Snapshot
  | .Info _ => .Info
  | .Query _ => .Info
  | .Echo _ => .Info

/-- The consensus category of ABCI requests. -/
inductive ConsensusRequest where
  | InitChain (x : InitChainReq)
  | BeginBlock (x : BeginBlockReq)
  | DeliverTx (x : DeliverTxReq)
  | EndBlock (x : EndBlockReq)
  | Commit
deriving DecidableEq

/-- `impl From<ConsensusRequest> for Request`. -/
def ConsensusRequest.toRequest : ConsensusRequest → Request
  | .InitChain x => .InitChain x
  | .BeginBlock x => .BeginBlock x
  | .DeliverTx x => .DeliverTx x
  | .EndBlock x => .EndBlock x
  | .Commit => .Commit

/-- `impl TryFrom<Request> for ConsensusRequest` (error type `&'static str`). -/
def ConsensusRequest.tryFromRequest : Request → Except String ConsensusRequest
  | .InitChain x => .ok (.InitChain x)
  | .BeginBlock x => .ok (.BeginBlock x)
  | .DeliverTx x => .ok (.DeliverTx x)
  | .EndBlock x => .ok (.EndBlock x)
  | .Commit => .ok .Commit
  | _ => .error "wrong request type"

/-- The mempool category of ABCI requests. -/
inductive MempoolRequest where
  | CheckTx (x : CheckTxReq)
deriving DecidableEq

/-- `impl From<MempoolRequest> for Request`. -/
def MempoolRequest.toRequest : MempoolRequest → Request
  | .CheckTx x => .CheckTx x

/-- `impl TryFrom<Request> for MempoolRequest`. -/
def MempoolRequest.tryFromRequest : Request → Except String MempoolRequest
  | .CheckTx x => .ok (.CheckTx x)
  | _ => .error "wrong request type"

/-- The info category of ABCI requests. -/
inductive InfoRequest where
  | Info (x : InfoReq)
  | Query (x : QueryReq)
  | Echo (x : EchoReq)
deriving DecidableEq

/-- `impl From<InfoRequest> for Request`. -/
def InfoRequest.toRequest : InfoRequest → Request
  | .Info x => .Info x
  | .Query x => .Query x
  | .Echo x => .Echo x

/-- `impl TryFrom<Request> for InfoRequest`. -/
def InfoRequest.tryFromRequest : Request → Except String InfoRequest
  | .Info x => .ok (.Info x)
  | .Query x => .ok (.Query x)
  | .Echo x => .ok (.Echo x)
  | _ => .error "wrong request type"

/-- The snapshot category of ABCI requests. -/
inductive SnapshotRequest where
  | ListSnapshots
  | OfferSnapshot (x : OfferSnapshotReq)
  | LoadSnapshotChunk (x : LoadSnapshotChunkReq)
  | ApplySnapshotChunk (x : ApplySnapshotChunkReq)
deriving DecidableEq

/-- `impl From<SnapshotRequest> for Request`. -/
def SnapshotRequest.toRequest : SnapshotRequest → Request
  | .ListSnapshots => .ListSnapshots
  | .OfferSnapshot x => .OfferSnapshot x
  | .LoadSnapshotChunk x => .LoadSnapshotChunk x
  | .ApplySnapshotChunk x => .ApplySnapshotChunk x

/-- `impl TryFrom<Request> for SnapshotRequest`. -/
def SnapshotRequest.tryFromRequest : Request → Except String SnapshotRequest
  | .ListSnapshots => .ok .ListSnapshots
  | .OfferSnapshot x => .ok (.OfferSnapshot x)
  | .LoadSnapshotChunk x => .ok (.LoadSnapshotChunk x)
  | .ApplySnapshotChunk x => .ok (.ApplySnapshotChunk x)
  | _ => .error "wrong request type"

/-- `pb::RequestEcho`. -/
structure PbRequestEcho where
  message : String
deriving DecidableEq

/-- `pb::RequestInfo`. -/
structure PbRequestInfo where
  version : String
  block_version : Nat
  p2p_version : Nat
  abci_version : String
deriving DecidableEq

/-- `pb::RequestDeliverTx`. -/
structure PbRequestDeliverTx where
  tx : Bytes
deriving DecidableEq

/-- `pb::RequestOfferSnapshot`: the nested snapshot descriptor is an
`Option` on the wire (protobuf message fields are optional); its own wire
form is the spec-modelled lossless `Snapshot` record. -/
structure PbRequestOfferSnapshot where
  snapshot : Option Snapshot
  app_hash : Bytes
deriving DecidableEq

/-- `pb::request::Value`: the oneof selector over the per-kind payloads.
Leaf payload types missing from `src/` keep their spec-modelled (lossless,
opaque) form on both sides of the wire. `Flush`, `Commit` and
`ListSnapshots` wrap the empty structs `pb::RequestFlush` /
`pb::RequestCommit` / `pb::RequestListSnapshots`. -/
inductive PbRequestValue where
  | Echo (x : PbRequestEcho)
  | Flush
  | Info (x : PbRequestInfo)
  | InitChain (x : InitChainReq)
  | Query (x : QueryReq)
  | BeginBlock (x : BeginBlockReq)
  | CheckTx (x : CheckTxReq)
  | DeliverTx (x : PbRequestDeliverTx)
  | EndBlock (x : EndBlockReq)
  | Commit
  | ListSnapshots
  | OfferSnapshot (x : PbRequestOfferSnapshot)
  | LoadSnapshotChunk (x : LoadSnapshotChunkReq)
  | ApplySnapshotChunk (x : ApplySnapshotChunkReq)
deriving DecidableEq

/-- `pb::Request { value: Option<pb::request::Value> }`. -/
structure PbRequest where
  value : Option PbRequestValue
deriving DecidableEq

/-- `impl From<Echo> for pb::RequestEcho`. -/
def EchoReq.toPb (e : EchoReq) : PbRequestEcho :=
  { message := e.message }

/-- `impl TryFrom<pb::RequestEcho> for Echo` (error type `&'static str`):
unconditionally `Ok`. -/
def EchoReq.fromPb (e : PbRequestEcho) : Except String EchoReq :=
  .ok { message := e.message }

/-- `impl From<Info> for pb::RequestInfo`. -/
def InfoReq.toPb (i : InfoReq) : PbRequestInfo :=
  { version := i.version
    block_version := i.block_version
    p2p_version := i.p2p_version
    abci_version := i.abci_version }

/-- `impl TryFrom<pb::RequestInfo> for Info` (error type `&'static str`):
unconditionally `Ok`. -/
def InfoReq.fromPb (i : PbRequestInfo) : Except String InfoReq :=
  .ok { version := i.version
        block_version := i.block_version
        p2p_version := i.p2p_version
        abci_version := i.abci_version }

/-- `impl From<DeliverTx> for pb::RequestDeliverTx`. -/
def DeliverTxReq.toPb (d : DeliverTxReq) : PbRequestDeliverTx :=
  { tx := d.tx }

/-- `impl TryFrom<pb::RequestDeliverTx> for DeliverTx` (error type
`crate::Error`): unconditionally `Ok`. -/
def DeliverTxReq.fromPb (d : PbRequestDeliverTx) : Except Error DeliverTxReq :=
  .ok { tx := d.tx }

/-- `impl From<OfferSnapshot> for pb::RequestOfferSnapshot`: wraps the
snapshot in `Some`. -/
def OfferSnapshotReq.toPb (o : OfferSnapshotReq) : PbRequestOfferSnapshot :=
  { snapshot := some o.snapshot
    app_hash := o.app_hash }

/-- `impl TryFrom<pb::RequestOfferSnapshot> for OfferSnapshot`:
`snapshot.ok_or("missing snapshot")?.try_into()?` — an absent nested
descriptor is the error `"missing snapshot"`; the nested `Snapshot`
conversion is spec-modelled as lossless. -/
def OfferSnapshotReq.fromPb (o : PbRequestOfferSnapshot) : Except Error OfferSnapshotReq :=
  match o.snapshot with
  | none => .error (Error.other "missing snapshot")
  | some s => .ok { snapshot := s, app_hash := o.app_hash }

/-- `impl From<Request> for pb::Request` (`request.rs`, lines 407-428):
total, always wraps the payload in `Some`. -/
def Request.toPb : Request → PbRequest
  | .Echo x => { value := some (.Echo x.toPb) }
  | .Flush => { value := some .Flush }
  | .Info x => { value := some (.Info x.toPb) }
  | .InitChain x => { value := some (.InitChain x) }
  | .Query x => { value := some (.Query x) }
  | .BeginBlock x => { value := some (.BeginBlock x) }
  | .CheckTx x => { value := some (.CheckTx x) }
  | .DeliverTx x => { value := some (.DeliverTx x.toPb) }
  | .EndBlock x => { value := some (.EndBlock x) }
  | .Commit => { value := some .Commit }
  | .ListSnapshots => { value := some .ListSnapshots }
  | .OfferSnapshot x => { value := some (.OfferSnapshot x.toPb) }
  | .LoadSnapshotChunk x => { value := some (.LoadSnapshotChunk x) }
  | .ApplySnapshotChunk x => { value := some (.ApplySnapshotChunk x) }

/-- `impl TryFrom<pb::Request> for Request` (`request.rs`, lines 430-453):
a `None` selector is `Err("no request in proto")`; leaf conversions with
`&'static str` errors are lifted into `crate::Error` by the `?` operator
(`From<&'static str> for Error`, i.e. `Error.other`). Leaves missing from
`src/` are spec-modelled as lossless, so their conversion is `Ok`. -/
def Request.tryFromPb (p : PbRequest) : Except Error Request :=
  match p.value with
  | some (.Echo x) => (x |> EchoReq.fromPb).mapError Error.other |>.map Request.Echo
  | some .Flush => .ok .Flush
  | some (.Info x) => (x |> InfoReq.fromPb).mapError Error.other |>.map Request.Info
  | some (.InitChain x) => .ok (.InitChain x)
  | some (.Query x) => .ok (.Query x)
  | some (.BeginBlock x) => .ok (.BeginBlock x)
  | some (.CheckTx x) => .ok (.CheckTx x)
  | some (.DeliverTx x) => (x |> DeliverTxReq.fromPb).map Request.DeliverTx
  | some (.EndBlock x) => .ok (.EndBlock x)
  | some .Commit => .ok .Commit
  | some .ListSnapshots => .ok .ListSnapshots
  | some (.OfferSnapshot x) => (x |> OfferSnapshotReq.fromPb).map Request.OfferSnapshot
  | some (.LoadSnapshotChunk x) => .ok (.LoadSnapshotChunk x)
  | some (.ApplySnapshotChunk x) => .ok (.ApplySnapshotChunk x)
  | none => .error (Error.other "no request in proto")

/-- All possible ABCI responses (`src/tendermint/src/abci/response.rs`). -/
inductive Response where
  | Exception (x : ExceptionResp)
  | Echo (x : EchoResp)
  | Flush
  | Info (x : InfoResp)
  | InitChain (x : InitChainResp)
  | Query (x : QueryResp)
  | BeginBlock (x : BeginBlockResp)
  | CheckTx (x : CheckTxResp)
  | DeliverTx (x : DeliverTxResp)
  | EndBlock (x : EndBlockResp)
  | Commit (x : CommitResp)
  | ListSnapshots (x : ListSnapshotsResp)
  | OfferSnapshot (x : OfferSnapshotResp)
  | LoadSnapshotChunk (x : LoadSnapshotChunkResp)
  | ApplySnapshotChunk (x : ApplySnapshotChunkResp)
deriving DecidableEq

/-- The consensus category of ABCI responses. -/
inductive ConsensusResponse where
  | InitChain (x : InitChainResp)
  | BeginBlock (x : BeginBlockResp)
  | DeliverTx (x : DeliverTxResp)
  | EndBlock (x : EndBlockResp)
  | Commit (x : CommitResp)
deriving DecidableEq

/-- `impl From<ConsensusResponse> for Response`. -/
def ConsensusResponse.toResponse : ConsensusResponse → Response
  | .InitChain x => .InitChain x
  | .BeginBlock x => .BeginBlock x
  | .DeliverTx x => .DeliverTx x
  | .EndBlock x => .EndBlock x
  | .Commit x => .Commit x

/-- `impl TryFrom<Response> for ConsensusResponse` (error `&'static str`,
the literal message is `"wrong request type"` also on the response side). -/
def ConsensusResponse.tryFromResponse : Response → Except String ConsensusResponse
  | .InitChain x => .ok (.InitChain x)
  | .BeginBlock x => .ok (.BeginBlock x)
  | .DeliverTx x => .ok (.DeliverTx x)
  | .EndBlock x => .ok (.EndBlock x)
  | .Commit x => .ok (.Commit x)
  | _ => .error "wrong request type"

/-- The mempool category of ABCI responses. -/
inductive MempoolResponse where
  | CheckTx (x : CheckTxResp)
deriving DecidableEq

/-- `impl From<MempoolResponse> for Response`. -/
def MempoolResponse.toResponse : MempoolResponse → Response
  | .CheckTx x => .CheckTx x

/-- `impl TryFrom<Response> for MempoolResponse`. -/
def MempoolResponse.tryFromResponse : Response → Except String MempoolResponse
  | .CheckTx x => .ok (.CheckTx x)
  | _ => .error "wrong request type"

/-- The info category of ABCI responses. -/
inductive InfoResponse where
  | Echo (x : EchoResp)
  | Info (x : InfoResp)
  | Query (x : QueryResp)
deriving DecidableEq

/-- `impl From<InfoResponse> for Response`. -/
def InfoResponse.toResponse : InfoResponse → Response
  | .Echo x => .Echo x
  | .Info x => .Info x
  | .Query x => .Query x

/-- `impl TryFrom<Response> for InfoResponse`. -/
def InfoResponse.tryFromResponse : Response → Except String InfoResponse
  | .Echo x => .ok (.Echo x)
  | .Info x => .ok (.Info x)
  | .Query x => .ok (.Query x)
  | _ => .error "wrong request type"

/-- The snapshot category of ABCI responses. -/
inductive SnapshotResponse where
  | ListSnapshots (x : ListSnapshotsResp)
  | OfferSnapshot (x : OfferSnapshotResp)
  | LoadSnapshotChunk (x : LoadSnapshotChunkResp)
  | ApplySnapshotChunk (x : ApplySnapshotChunkResp)
deriving DecidableEq

/-- `impl From<SnapshotResponse> for Response`. -/
def SnapshotResponse.toResponse : SnapshotResponse → Response
  | .ListSnapshots x => .ListSnapshots x
  | .OfferSnapshot x => .OfferSnapshot x
  | .LoadSnapshotChunk x => .LoadSnapshotChunk x
  | .ApplySnapshotChunk x => .ApplySnapshotChunk x

/-- `impl TryFrom<Response> for SnapshotResponse`. -/
def SnapshotResponse.tryFromResponse : Response → Except String SnapshotResponse
  | .ListSnapshots x => .ok (.ListSnapshots x)
  | .OfferSnapshot x => .ok (.OfferSnapshot x)
  | .LoadSnapshotChunk x => .ok (.LoadSnapshotChunk x)
  | .ApplySnapshotChunk x => .ok (.ApplySnapshotChunk x)
  | _ => .error "wrong request type"

/-- `pb::ResponseEcho`. -/
structure PbResponseEcho where
  message : String
deriving DecidableEq

/-- `pb::ResponseBeginBlock`: a vector of events; the per-event wire type
and its conversion live in the spec-modelled opaque `Event`. -/
structure PbResponseBeginBlock where
  events : List Event
deriving DecidableEq

/-- `pb::ResponseApplySnapshotChunk`: the `result` field is a raw `i32` on
the wire. -/
structure PbResponseApplySnapshotChunk where
  result : Int
  refetch_chunks : List Nat
  reject_senders : List String
deriving DecidableEq

/-- `impl From<Echo> for pb::ResponseEcho`. -/
def EchoResp.toPb (e : EchoResp) : PbResponseEcho :=
  { message := e.message }

/-- `impl TryFrom<pb::ResponseEcho> for Echo` (error type `&'static str`):
unconditionally `Ok`. -/
def EchoResp.fromPb (e : PbResponseEcho) : Except String EchoResp :=
  .ok { message := e.message }

/-- The per-event `Into` conversion used by
`From<BeginBlock> for pb::ResponseBeginBlock`; `Event`'s own conversion is
spec-modelled as lossless. -/
def Event.toPb (e : Event) : Event := e

/-- The per-event `TryInto` conversion used by
`TryFrom<pb::ResponseBeginBlock> for BeginBlock`; spec-modelled as
lossless, so it is unconditionally `Ok`. -/
def Event.fromPb (e : Event) : Except Error Event := .ok e

/-- `impl From<BeginBlock> for pb::ResponseBeginBlock`: maps the event
conversion over the vector. -/
def BeginBlockResp.toPb (b : BeginBlockResp) : PbResponseBeginBlock :=
  { events := b.events.map Event.toPb }

/-- `impl TryFrom<pb::ResponseBeginBlock> for BeginBlock`: converts each
event, collecting into a `Result` (the first failure aborts). -/
def BeginBlockResp.fromPb (b : PbResponseBeginBlock) : Except Error BeginBlockResp :=
  (b.events.mapM Event.fromPb).map fun es => { events := es }

/-- `impl From<ApplySnapshotChunk> for pb::ResponseApplySnapshotChunk`:
the result is cast with `as i32`. -/
def ApplySnapshotChunkResp.toPb (a : ApplySnapshotChunkResp) : PbResponseApplySnapshotChunk :=
  { result := a.result.toInt
    refetch_chunks := a.refetch_chunks
    reject_senders := a.reject_senders }

/-- `impl TryFrom<pb::ResponseApplySnapshotChunk> for ApplySnapshotChunk`:
decodes the integer result via the 0..5 table, failing on anything else. -/
def ApplySnapshotChunkResp.fromPb (a : PbResponseApplySnapshotChunk) : Except Error ApplySnapshotChunkResp :=
  (ApplySnapshotChunkResult.fromInt a.result).map fun r =>
    { result := r
      refetch_chunks := a.refetch_chunks
      reject_senders := a.reject_senders }

/-- `pb::response::Value`: the oneof selector over the per-kind payloads.
Leaf payload types missing from `src/` keep their spec-modelled (lossless,
opaque) form on both sides of the wire; `Flush` wraps the empty struct
`pb::ResponseFlush`. -/
inductive PbResponseValue where
  | Exception (x : ExceptionResp)
  | Echo (x : PbResponseEcho)
  | Flush
  | Info (x : InfoResp)
  | InitChain (x : InitChainResp)
  | Query (x : QueryResp)
  | BeginBlock (x : PbResponseBeginBlock)
  | CheckTx (x : CheckTxResp)
  | DeliverTx (x : DeliverTxResp)
  | EndBlock (x : EndBlockResp)
  | Commit (x : CommitResp)
  | ListSnapshots (x : ListSnapshotsResp)
  | OfferSnapshot (x : OfferSnapshotResp)
  | LoadSnapshotChunk (x : LoadSnapshotChunkResp)
  | ApplySnapshotChunk (x : PbResponseApplySnapshotChunk)
deriving DecidableEq

/-- `pb::Response { value: Option<pb::response::Value> }`. -/
structure PbResponse where
  value : Option PbResponseValue
deriving DecidableEq

/-- `impl From<Response> for pb::Response` (`response.rs`, lines 310-332):
total, always wraps the payload in `Some`. -/
def Response.toPb : Response → PbResponse
  | .Exception x => { value := some (.Exception x) }
  | .Echo x => { value := some (.Echo x.toPb) }
  | .Flush => { value := some .Flush }
  | .Info x => { value := some (.Info x) }
  | .InitChain x => { value := some (.InitChain x) }
  | .Query x => { value := some (.Query x) }
  | .BeginBlock x => { value := some (.BeginBlock x.toPb) }
  | .CheckTx x => { value := some (.CheckTx x) }
  | .DeliverTx x => { value := some (.DeliverTx x) }
  | .EndBlock x => { value := some (.EndBlock x) }
  | .Commit x => { value := some (.Commit x) }
  | .ListSnapshots x => { value := some (.ListSnapshots x) }
  | .OfferSnapshot x => { value := some (.OfferSnapshot x) }
  | .LoadSnapshotChunk x => { value := some (.LoadSnapshotChunk x) }
  | .ApplySnapshotChunk x => { value := some (.ApplySnapshotChunk x.toPb) }

/-- `impl TryFrom<pb::Response> for Response` (`response.rs`, lines
334-358): a `None` selector is `Err("no response in proto")`; the `Echo`
leaf's `&'static str` error is lifted into `crate::Error` by `?`. Leaves
missing from `src/` are spec-modelled as lossless, so their conversion is
`Ok`. -/
def Response.tryFromPb (p : PbResponse) : Except Error Response :=
  match p.value with
  | some (.Exception x) => .ok (.Exception x)
  | some (.Echo x) => (x |> EchoResp.fromPb).mapError Error.other |>.map Response.Echo
  | some .Flush => .ok .Flush
  | some (.Info x) => .ok (.Info x)
  | some (.InitChain x) => .ok (.InitChain x)
  | some (.Query x) => .ok (.Query x)
  | some (.BeginBlock x) => (x |> BeginBlockResp.fromPb).map Response.BeginBlock
  | some (.CheckTx x) => .ok (.CheckTx x)
  | some (.DeliverTx x) => .ok (.DeliverTx x)
  | some (.EndBlock x) => .ok (.EndBlock x)
  | some (.Commit x) => .ok (.Commit x)
  | some (.ListSnapshots x) => .ok (.ListSnapshots x)
  | some (.OfferSnapshot x) => .ok (.OfferSnapshot x)
  | some (.LoadSnapshotChunk x) => .ok (.LoadSnapshotChunk x)
  | some (.ApplySnapshotChunk x) => (x |> ApplySnapshotChunkResp.fromPb).map Response.ApplySnapshotChunk
  | none => .error (Error.other "no response in proto")

lemma event_fromPb_loop (l acc : List Event) :
    List.mapM.loop Event.fromPb l acc = Except.ok (acc.reverse ++ l) := by
  induction l generalizing acc with
  | nil => simp [List.mapM.loop]; rfl
  | cons a l ih => simp [List.mapM.loop, Event.fromPb, ih]; rfl

lemma event_fromPb_mapM (l : List Event) : l.mapM Event.fromPb = Except.ok l := by
  show List.mapM.loop Event.fromPb l [] = Except.ok l
  simp [event_fromPb_loop]

lemma beginBlockResp_roundtrip (b : BeginBlockResp) :
    BeginBlockResp.fromPb b.toPb = Except.ok b := by
  cases b with
  | mk events =>
    show ((events.map Event.toPb).mapM Event.fromPb).map (fun es => BeginBlockResp.mk es)
      = Except.ok (BeginBlockResp.mk events)
    rw [show events.map Event.toPb = events from by
      simp only [show Event.toPb = id from rfl, List.map_id]]
    rw [event_fromPb_mapM]
    rfl

lemma applySnapshotChunkResp_roundtrip (a : ApplySnapshotChunkResp) :
    ApplySnapshotChunkResp.fromPb a.toPb = Except.ok a := by
  cases a with
  | mk r rc rs =>
    cases r <;> rfl

/-- C1: wire codec round trip — for every constructible `Request` value `m`,
converting to the protobuf form and back yields `Ok m`, likewise for every
`Response` value, and in particular `Echo { message := "ping" }` decodes
back to itself unchanged. -/
theorem wire_roundtrip :
    (∀ m : Request, Request.tryFromPb m.toPb = Except.ok m) ∧
    (∀ m : Response, Response.tryFromPb m.toPb = Except.ok m) ∧
    Request.tryFromPb (Request.Echo { message := "ping" }).toPb
      = Except.ok (Request.Echo { message := "ping" }) := by
  refine ⟨?_, ?_, rfl⟩
  · intro m
    cases m <;> rfl
  · intro m
    cases m with
    | BeginBlock x =>
      show (BeginBlockResp.fromPb x.toPb).map Response.BeginBlock = _
      rw [beginBlockResp_roundtrip]
      rfl
    | ApplySnapshotChunk x =>
      show (ApplySnapshotChunkResp.fromPb x.toPb).map Response.ApplySnapshotChunk = _
      rw [applySnapshotChunkResp_roundtrip]
      rfl
    | _ => rfl

/-- C2: category bijection — for every `Request` `r` and each category `C`
in {Consensus, Mempool, Info, Snapshot}, mapping the widening over the
narrowing equals `Ok r` exactly when `category_of(r) = C` (so narrowing
succeeds and widening the narrowed value returns `r`), and equals the
wrong-category error otherwise (so narrowing to any other category fails). -/
theorem category_bijection : ∀ r : Request,
    ((ConsensusRequest.tryFromRequest r).map ConsensusRequest.toRequest
      = if r.kind = MethodKind.Consensus then Except.ok r
        else Except.error "wrong request type") ∧
    ((MempoolRequest.tryFromRequest r).map MempoolRequest.toRequest
      = if r.kind = MethodKind.Mempool then Except.ok r
        else Except.error "wrong request type") ∧
    ((InfoRequest.tryFromRequest r).map InfoRequest.toRequest
      = if r.kind = MethodKind.Info then Except.ok r
        else Except.error "wrong request type") ∧
    ((SnapshotRequest.tryFromRequest r).map SnapshotRequest.toRequest
      = if r.kind = MethodKind.Snapshot then Except.ok r
        else Except.error "wrong request type") := by
  intro r
  cases r <;> exact ⟨rfl, rfl, rfl, rfl⟩

/-- C3: category table — `Request.kind` is a total function (defined on
every variant, with no error path) assigning Commit, InitChain, BeginBlock,
DeliverTx and EndBlock to Consensus, CheckTx to Mempool, Info, Query and
Echo to Info, the four snapshot requests to Snapshot, and Flush to Flush;
in particular `category_of(Commit) = Consensus` and narrowing `Commit` to
the mempool union fails with the wrong-category error. -/
theorem category_table :
    (∀ x, (Request.InitChain x).kind = MethodKind.Consensus) ∧
    (∀ x, (Request.BeginBlock x).kind = MethodKind.Consensus) ∧
    (∀ x, (Request.DeliverTx x).kind = MethodKind.Consensus) ∧
    (∀ x, (Request.EndBlock x).kind = MethodKind.Consensus) ∧
    (Request.Commit.kind = MethodKind.Consensus) ∧
    (∀ x, (Request.CheckTx x).kind = MethodKind.Mempool) ∧
    (∀ x, (Request.Info x).kind = MethodKind.Info) ∧
    (∀ x, (Request.Query x).kind = MethodKind.Info) ∧
    (∀ x, (Request.Echo x).kind = MethodKind.Info) ∧
    (Request.ListSnapshots.kind = MethodKind.Snapshot) ∧
    (∀ x, (Request.OfferSnapshot x).kind = MethodKind.Snapshot) ∧
    (∀ x, (Request.LoadSnapshotChunk x).kind = MethodKind.Snapshot) ∧
    (∀ x, (Request.ApplySnapshotChunk x).kind = MethodKind.Snapshot) ∧
    (Request.Flush.kind = MethodKind.Flush) ∧
    (MempoolRequest.tryFromRequest Request.Commit
      = Except.error "wrong request type") :=
  ⟨fun _ => rfl, fun _ => rfl, fun _ => rfl, fun _ => rfl, rfl,
   fun _ => rfl, fun _ => rfl, fun _ => rfl, fun _ => rfl, rfl,
   fun _ => rfl, fun _ => rfl, fun _ => rfl, rfl, rfl⟩

/-- C6: widen-then-narrow identity — for every value of each narrowed
category union (request and response side), widening into the full union
and re-narrowing to the same category yields `Ok` of the original value,
while re-narrowing the widened value to any of the other categories fails
with the wrong-category error. -/
theorem widen_narrow_identity :
    (∀ n : ConsensusRequest,
      ConsensusRequest.tryFromRequest n.toRequest = Except.ok n ∧
      MempoolRequest.tryFromRequest n.toRequest = Except.error "wrong request type" ∧
      InfoRequest.tryFromRequest n.toRequest = Except.error "wrong request type" ∧
      SnapshotRequest.tryFromRequest n.toRequest = Except.error "wrong request type") ∧
    (∀ n : MempoolRequest,
      MempoolRequest.tryFromRequest n.toRequest = Except.ok n ∧
      ConsensusRequest.tryFromRequest n.toRequest = Except.error "wrong request type" ∧
      InfoRequest.tryFromRequest n.toRequest = Except.error "wrong request type" ∧
      SnapshotRequest.tryFromRequest n.toRequest = Except.error "wrong request type") ∧
    (∀ n : InfoRequest,
      InfoRequest.tryFromRequest n.toRequest = Except.ok n ∧
      ConsensusRequest.tryFromRequest n.toRequest = Except.error "wrong request type" ∧
      MempoolRequest.tryFromRequest n.toRequest = Except.error "wrong request type" ∧
      SnapshotRequest.tryFromRequest n.toRequest = Except.error "wrong request type") ∧
    (∀ n : SnapshotRequest,
      SnapshotRequest.tryFromRequest n.toRequest = Except.ok n ∧
      ConsensusRequest.tryFromRequest n.toRequest = Except.error "wrong request type" ∧
      MempoolRequest.tryFromRequest n.toRequest = Except.error "wrong request type" ∧
      InfoRequest.tryFromRequest n.toRequest = Except.error "wrong request type") ∧
    (∀ n : ConsensusResponse,
      ConsensusResponse.tryFromResponse n.toResponse = Except.ok n ∧
      MempoolResponse.tryFromResponse n.toResponse = Except.error "wrong request type" ∧
      InfoResponse.tryFromResponse n.toResponse = Except.error "wrong request type" ∧
      SnapshotResponse.tryFromResponse n.toResponse = Except.error "wrong request type") ∧
    (∀ n : MempoolResponse,
      MempoolResponse.tryFromResponse n.toResponse = Except.ok n ∧
      ConsensusResponse.tryFromResponse n.toResponse = Except.error "wrong request type" ∧
      InfoResponse.tryFromResponse n.toResponse = Except.error "wrong request type" ∧
      SnapshotResponse.tryFromResponse n.toResponse = Except.error "wrong request type") ∧
    (∀ n : InfoResponse,
      InfoResponse.tryFromResponse n.toResponse = Except.ok n ∧
      ConsensusResponse.tryFromResponse n.toResponse = Except.error "wrong request type" ∧
      MempoolResponse.tryFromResponse n.toResponse = Except.error "wrong request type" ∧
      SnapshotResponse.tryFromResponse n.toResponse = Except.error "wrong request type") ∧
    (∀ n : SnapshotResponse,
      SnapshotResponse.tryFromResponse n.toResponse = Except.ok n ∧
      ConsensusResponse.tryFromResponse n.toResponse = Except.error "wrong request type" ∧
      MempoolResponse.tryFromResponse n.toResponse = Except.error "wrong request type" ∧
      InfoResponse.tryFromResponse n.toResponse = Except.error "wrong request type") := by
  refine ⟨?_, ?_, ?_, ?_, ?_, ?_, ?_, ?_⟩ <;>
    exact fun n => by cases n <;> exact ⟨rfl, rfl, rfl, rfl⟩

/-- C8: `Exception` has no category — for every `Exception` payload,
narrowing `Response.Exception` to each of the four narrowed response
unions fails with the wrong-category error. -/
theorem exception_no_category : ∀ x : ExceptionResp,
    ConsensusResponse.tryFromResponse (Response.Exception x)
      = Except.error "wrong request type" ∧
    MempoolResponse.tryFromResponse (Response.Exception x)
      = Except.error "wrong request type" ∧
    InfoResponse.tryFromResponse (Response.Exception x)
      = Except.error "wrong request type" ∧
    SnapshotResponse.tryFromResponse (Response.Exception x)
      = Except.error "wrong request type" :=
  fun _ => ⟨rfl, rfl, rfl, rfl⟩

/-- C4 counterexample: the decoder's out-of-range error does not carry the
offending integer. Decoding result 6 and decoding result 7 produce the very
same error value, the constant `Error.other "unknown snapshot chunk result"`,
so the error cannot carry the integer it rejected. -/
theorem chunk_result_error_drops_integer :
    ApplySnapshotChunkResp.fromPb
        { result := 6, refetch_chunks := [], reject_senders := [] }
      = Except.error (Error.other "unknown snapshot chunk result") ∧
    ApplySnapshotChunkResp.fromPb
        { result := 6, refetch_chunks := [], reject_senders := [] }
      = ApplySnapshotChunkResp.fromPb
        { result := 7, refetch_chunks := [], reject_senders := [] } :=
  ⟨rfl, rfl⟩

/-- C4 (amended): enum stability of `ApplySnapshotChunkResult` decoding —
0 yields Unknown, 1 Accept, 2 Abort, 3 Retry, 4 RetrySnapshot,
5 RejectSnapshot, and any integer outside 0-5 (for example 6) fails with
the fixed unknown-enum error (which does not carry the integer) rather
than being truncated to a known value. -/
theorem chunk_result_decode_table :
    (ApplySnapshotChunkResult.fromInt 0 = Except.ok .Unknown) ∧
    (ApplySnapshotChunkResult.fromInt 1 = Except.ok .Accept) ∧
    (ApplySnapshotChunkResult.fromInt 2 = Except.ok .Abort) ∧
    (ApplySnapshotChunkResult.fromInt 3 = Except.ok .Retry) ∧
    (ApplySnapshotChunkResult.fromInt 4 = Except.ok .RetrySnapshot) ∧
    (ApplySnapshotChunkResult.fromInt 5 = Except.ok .RejectSnapshot) ∧
    (∀ n : Int, n < 0 ∨ 5 < n →
      ApplySnapshotChunkResult.fromInt n
        = Except.error (Error.other "unknown snapshot chunk result")) := by
  refine ⟨rfl, rfl, rfl, rfl, rfl, rfl, ?_⟩
  intro n h
  simp only [ApplySnapshotChunkResult.fromInt]
  rw [if_neg (by omega), if_neg (by omega), if_neg (by omega),
      if_neg (by omega), if_neg (by omega), if_neg (by omega)]

theorem chunk_result_decode_table_witness :
    ApplySnapshotChunkResult.fromInt 6
      = Except.error (Error.other "unknown snapshot chunk result") :=
  chunk_result_decode_table.2.2.2.2.2.2 6 (Or.inr (by decide))

/-- C5: typed decode errors, never panic — a protobuf `Request` whose outer
selector carries no value decodes to the missing-payload error
(`"no request in proto"`, and `"no response in proto"` on the response
side); an `OfferSnapshot` whose nested snapshot descriptor is absent
decodes to the missing-nested-field error (`"missing snapshot"`), both at
the leaf and through the outer decoder; and on every input the decoder is
total, returning either an `ok` message or an explicit typed error value. -/
theorem decode_missing_errors :
    (Request.tryFromPb { value := none }
      = Except.error (Error.other "no request in proto")) ∧
    (Response.tryFromPb { value := none }
      = Except.error (Error.other "no response in proto")) ∧
    (∀ o : PbRequestOfferSnapshot, o.snapshot = none →
      OfferSnapshotReq.fromPb o = Except.error (Error.other "missing snapshot")) ∧
    (∀ ah : Bytes,
      Request.tryFromPb
          { value := some (.OfferSnapshot { snapshot := none, app_hash := ah }) }
        = Except.error (Error.other "missing snapshot")) ∧
    (∀ p : PbRequest,
      (∃ m, Request.tryFromPb p = Except.ok m) ∨
      (∃ e, Request.tryFromPb p = Except.error e)) ∧
    (∀ p : PbResponse,
      (∃ m, Response.tryFromPb p = Except.ok m) ∨
      (∃ e, Response.tryFromPb p = Except.error e)) := by
  refine ⟨rfl, rfl, ?_, fun _ => rfl, ?_, ?_⟩
  · intro o h
    rcases o with ⟨s, ah⟩
    cases s with
    | none => rfl
    | some v => exact Option.noConfusion h
  · intro p
    cases hr : Request.tryFromPb p with
    | ok m => exact Or.inl ⟨m, rfl⟩
    | error e => exact Or.inr ⟨e, rfl⟩
  · intro p
    cases hr : Response.tryFromPb p with
    | ok m => exact Or.inl ⟨m, rfl⟩
    | error e => exact Or.inr ⟨e, rfl⟩

theorem decode_missing_errors_witness :
    OfferSnapshotReq.fromPb { snapshot := none, app_hash := [] }
      = Except.error (Error.other "missing snapshot") :=
  decode_missing_errors.2.2.1 { snapshot := none, app_hash := [] } rfl

/-- C7: encode totality and determinism — converting any `Request` or
`Response` to its protobuf form always succeeds and always yields a
selector whose value field is `some` payload, and the conversion is a
function of the message value alone: equal inputs give equal encodings. -/
theorem encode_total_deterministic :
    (∀ r : Request, ∃ v, (Request.toPb r).value = some v) ∧
    (∀ r : Response, ∃ v, (Response.toPb r).value = some v) ∧
    (∀ a b : Request, a = b → Request.toPb a = Request.toPb b) ∧
    (∀ a b : Response, a = b → Response.toPb a = Response.toPb b) := by
  refine ⟨?_, ?_, ?_, ?_⟩
  · intro r; cases r <;> exact ⟨_, rfl⟩
  · intro r; cases r <;> exact ⟨_, rfl⟩
  · intro a b h; rw [h]
  · intro a b h; rw [h]

theorem encode_total_deterministic_witness :
    (∃ v, (Request.toPb Request.Commit).value = some v) ∧
    Request.toPb Request.Flush = Request.toPb Request.Flush :=
  ⟨encode_total_deterministic.1 Request.Commit,
   encode_total_deterministic.2.2.1 Request.Flush Request.Flush rfl⟩

/-- C9: default of the chunk-apply result is the zero value —
`ApplySnapshotChunkResult::default()` is `Unknown`; the default
`ApplySnapshotChunk` response has result `Unknown` and empty
`refetch_chunks` and `reject_senders`; and decoding a protobuf
`ApplySnapshotChunk` whose result field is 0 (the protobuf default for an
absent field) yields `Unknown` rather than a decode error. -/
theorem chunk_default_zero :
    (ApplySnapshotChunkResult.default = ApplySnapshotChunkResult.Unknown) ∧
    (ApplySnapshotChunkResp.default
      = { result := .Unknown, refetch_chunks := [], reject_senders := [] }) ∧
    (∀ rc rs, ApplySnapshotChunkResp.fromPb
        { result := 0, refetch_chunks := rc, reject_senders := rs }
      = Except.ok { result := .Unknown, refetch_chunks := rc, reject_senders := rs }) :=
  ⟨rfl, rfl, fun _ _ => rfl⟩

/-- C10: infallible leaf decodes — the `TryFrom` conversions for the flat
leaf payloads `pb::RequestEcho`, `pb::ResponseEcho`, `pb::RequestInfo` and
`pb::RequestDeliverTx` succeed on every possible input value, returning the
field-for-field copy and never an error. -/
theorem leaf_decode_infallible :
    (∀ x : PbRequestEcho, EchoReq.fromPb x = Except.ok { message := x.message }) ∧
    (∀ x : PbResponseEcho, EchoResp.fromPb x = Except.ok { message := x.message }) ∧
    (∀ x : PbRequestInfo, InfoReq.fromPb x
      = Except.ok { version := x.version, block_version := x.block_version,
                    p2p_version := x.p2p_version, abci_version := x.abci_version }) ∧
    (∀ x : PbRequestDeliverTx, DeliverTxReq.fromPb x = Except.ok { tx := x.tx }) :=
  ⟨fun _ => rfl, fun _ => rfl, fun _ => rfl, fun _ => rfl⟩
